import Mathlib

/-!
Verification of the NYT article-search movie-review server
(`testing.py`): a shallow embedding of its pure request/response logic.

Modelling conventions:
* Python strings are modelled as `List Char` (`Str`), restricted to the
  ASCII behaviour of `str.strip`, `str.isdigit`, `str.lower` — all the
  string data handled by the program and its spec is ASCII.
* The HTTP call performed by `nyt_get` is abstracted away: the tool
  operations are modelled as pure functions of the JSON dictionary that
  `nyt_get` hands back (`ApiData`) plus the `limit` argument, which is the
  only part of the tool bodies that the dictionary reaches.
* JSON dictionaries are modelled just as finely as the code inspects them:
  presence of the `"error"` key, its (optional string) value, the
  effective `docs` list under `"response"`, and whether any other key is
  present (which only matters for Python's emptiness test `not data`).
-/

/-- Python strings, modelled as lists of characters. -/
abbrev Str := List Char

/-- ASCII whitespace as stripped by Python's `str.strip()`. -/
def pyIsSpace (c : Char) : Bool :=
  c == ' ' || c == '\t' || c == '\n' || c == '\r' || c == '\x0b' || c == '\x0c'

/-- Model of `str.strip()`: drop whitespace from both ends. -/
def pyStrip (s : Str) : Str :=
  ((s.dropWhile pyIsSpace).reverse.dropWhile pyIsSpace).reverse

/-- Right-hand strip only (drops trailing whitespace). -/
def rstrip (s : Str) : Str :=
  (s.reverse.dropWhile pyIsSpace).reverse

/-- ASCII decimal digits — the model of Python's `str.isdigit` character test. -/
def isDig (c : Char) : Bool :=
  c == '0' || c == '1' || c == '2' || c == '3' || c == '4' ||
  c == '5' || c == '6' || c == '7' || c == '8' || c == '9'

/-- Value of an ASCII digit character (0 for non-digits). -/
def digVal (c : Char) : Nat :=
  match c with
  | '0' => 0 | '1' => 1 | '2' => 2 | '3' => 3 | '4' => 4
  | '5' => 5 | '6' => 6 | '7' => 7 | '8' => 8 | '9' => 9
  | _ => 0

/-- The ASCII digit character for `n % 10`-style arguments below 10. -/
def digitChar (n : Nat) : Char :=
  match n with
  | 0 => '0' | 1 => '1' | 2 => '2' | 3 => '3' | 4 => '4'
  | 5 => '5' | 6 => '6' | 7 => '7' | 8 => '8' | _ => '9'

/-- Two-digit zero-padded decimal rendering, the model of `strftime`'s
`%m`/`%d` fields (their values are below 100). -/
def padNum2 (n : Nat) : Str := [digitChar (n / 10 % 10), digitChar (n % 10)]

/-- Four-digit zero-padded decimal rendering, the model of `strftime`'s
`%Y` field (the parsed years are below 10000). -/
def padNum4 (n : Nat) : Str :=
  [digitChar (n / 1000 % 10), digitChar (n / 100 % 10),
   digitChar (n / 10 % 10), digitChar (n % 10)]

/-- Left fold reading a decimal digit string, accumulator-style. -/
def readNatAux (a : Nat) : Str → Nat
  | [] => a
  | c :: cs => readNatAux (10 * a + digVal c) cs

/-- Numeric value of a decimal digit string (the model of Python `int`
on a string the `strptime` regex matched). -/
def readNat (s : Str) : Nat := readNatAux 0 s

/-- Model of Python's `str.split(sep)` for a one-character separator;
splitting the empty string yields one empty part, and separators at the ends
yield empty parts. -/
def splitOnChar (c : Char) : Str → List Str
  | [] => [[]]
  | x :: xs =>
    match splitOnChar c xs with
    | [] => if x == c then [[], []] else [[x]]
    | h :: t => if x == c then [] :: h :: t else (x :: h) :: t

/-- Rejoin what `splitOnChar` produced: intersperse the separator. -/
def joinChar (c : Char) : List Str → Str
  | [] => []
  | [x] => x
  | x :: y :: t => x ++ c :: joinChar c (y :: t)

/-- Whether the first string occurs at the start of the second
(Python `str.startswith`). -/
def leadsWith : Str → Str → Bool
  | [], _ => true
  | _ :: _, [] => false
  | c :: cs, d :: ds => c == d && leadsWith cs ds

/-- Substring containment, Python's `needle in hay`. -/
def hasSub (needle : Str) : Str → Bool
  | [] => needle.isEmpty
  | c :: t => leadsWith needle (c :: t) || hasSub needle t

/-- ASCII lower-casing, the model of `str.lower()`. -/
def lowerStr (s : Str) : Str := s.map Char.toLower

/-- Python `or` on an optional string with a default: `None` and the empty
string are both falsy and fall through to the default. -/
def orDefault (s : Option Str) (dflt : Str) : Str :=
  match s with
  | none => dflt
  | some [] => dflt
  | some (c :: cs) => c :: cs

/-- Model of `sep.join(parts)` for a list of strings. -/
def joinSep (sep : Str) : List Str → Str
  | [] => []
  | [x] => x
  | x :: y :: t => x ++ sep ++ joinSep sep (y :: t)

/-! ## Date normalizer (`iso_to_yyyymmdd`) -/

/-- Gregorian leap-year rule, as in Python's `datetime`. -/
def isLeap (y : Nat) : Bool := y % 4 == 0 && (y % 100 != 0 || y % 400 == 0)

/-- Days in a month, as validated by the `datetime.datetime` constructor. -/
def daysInMonth (y m : Nat) : Nat :=
  if m == 2 then (if isLeap y then 29 else 28)
  else if m == 4 || m == 6 || m == 9 || m == 11 then 30
  else 31

/-- Statement that `y-m-d` names a real calendar date representable by
`datetime.datetime` (years 1–9999, per `MINYEAR`/`MAXYEAR`). -/
def ValidYMD (y m d : Nat) : Prop :=
  1 ≤ y ∧ y ≤ 9999 ∧ 1 ≤ m ∧ m ≤ 12 ∧ 1 ≤ d ∧ d ≤ daysInMonth y m

instance (y m d : Nat) : Decidable (ValidYMD y m d) := by
  unfold ValidYMD; infer_instance

/-- The `%Y` field of CPython's `strptime`: exactly four digits. -/
def yearTok (t : Str) : Option Nat :=
  if t.length == 4 && t.all isDig then some (readNat t) else none

/-- The `%m`/`%d` fields of CPython's `strptime`: one or two digits whose
value lies in `[lo, hi]` (the regexes `1[0-2]|0[1-9]|[1-9]` and
`3[01]|[12]\d|0[1-9]|[1-9]` accept exactly the 1–2 digit strings with values
1–12 resp. 1–31). -/
def fieldTok (lo hi : Nat) (t : Str) : Option Nat :=
  if !t.isEmpty && t.length ≤ 2 && t.all isDig
      && lo ≤ readNat t && readNat t ≤ hi then some (readNat t) else none

/-- Model of `datetime.strptime(t, "%Y-%m-%d")` followed by the `datetime`
constructor checks: four-digit year, 1–2 digit month and day, whole-string match,
calendar validity.  Returns the parsed `(y, m, d)` or `none` for the
`except`-swallowed `ValueError`. -/
def parseYMD (t : Str) : Option (Nat × Nat × Nat) :=
  match splitOnChar '-' t with
  | [ys, ms, ds] =>
    match yearTok ys, fieldTok 1 12 ms, fieldTok 1 31 ds with
    | some y, some m, some d =>
      if 1 ≤ y ∧ d ≤ daysInMonth y m then some (y, m, d) else none
    | _, _, _ => none
  | _ => none

/-- Plain decimal digits of `n`, without leading zeros, for `n < 10000`
(the only range the date code reaches). -/
def natDigits4 (n : Nat) : Str :=
  if n < 10 then [digitChar n]
  else if n < 100 then [digitChar (n / 10), digitChar (n % 10)]
  else if n < 1000 then [digitChar (n / 100), digitChar (n / 10 % 10), digitChar (n % 10)]
  else padNum4 n

/-- Model of `strftime("%Y%m%d")`: `%m` and `%d` zero-pad to two digits; `%Y`
delegates to the platform's C library, and with CPython on glibc (the
platform this server runs on) years below 1000 are rendered without zero
padding — `datetime(999, 1, 1).strftime("%Y%m%d") == "9990101"`.  So the
result is the 8-digit compact date exactly for years with four digits. -/
def fmtYMD (y m d : Nat) : Str := natDigits4 y ++ padNum2 m ++ padNum2 d

/-- The helper `iso_to_yyyymmdd` from the source: reject empty input, strip, pass
8-digit strings through, otherwise strict-parse `"%Y-%m-%d"` and reformat;
any parse failure yields `None`. -/
def iso_to_yyyymmdd (s : Str) : Option Str :=
  if s.isEmpty then none
  else if (pyStrip s).length == 8 && (pyStrip s).all isDig then some (pyStrip s)
  else (parseYMD (pyStrip s)).map (fun p => fmtYMD p.1 p.2.1 p.2.2)

/-! ## Documents and the formatter (`format_doc`) -/

/-- The `headline` sub-object of a raw API document. -/
structure Headline where
  main : Option Str
  kicker : Option Str
deriving DecidableEq

/-- The `byline` sub-object of a raw API document. -/
structure Byline where
  original : Option Str
deriving DecidableEq

/-- One raw search-result document, modelled with exactly the optional
fields the program reads.  `critics_pick` is `some n` when the JSON value is
the integer `n`, `none` when absent (or null). -/
structure Document where
  headline : Option Headline
  byline : Option Byline
  pub_date : Option Str
  web_url : Option Str
  abstract : Option Str
  snippet : Option Str
  critics_pick : Option Int
deriving DecidableEq

/-- Python `(doc.get("headline") or {}).get("main") or "Untitled"`. -/
def docTitle (doc : Document) : Str :=
  orDefault (doc.headline.bind Headline.main) ("Untitled".toList)

/-- Python `(doc.get("headline") or {}).get("kicker") or ""`. -/
def docKicker (doc : Document) : Str :=
  orDefault (doc.headline.bind Headline.kicker) []

/-- Python `(doc.get("byline") or {}).get("original") or "Unknown byline"`. -/
def docByline (doc : Document) : Str :=
  orDefault (doc.byline.bind Byline.original) ("Unknown byline".toList)

/-- Python `(doc.get("pub_date") or "")[:10]`. -/
def docPub (doc : Document) : Str :=
  (orDefault doc.pub_date []).take 10

/-- Python `doc.get("web_url") or ""`. -/
def docUrl (doc : Document) : Str :=
  orDefault doc.web_url []

/-- Python `doc.get("abstract") or doc.get("snippet") or ""`. -/
def docSummary (doc : Document) : Str :=
  orDefault doc.abstract (orDefault doc.snippet [])

/-- Python `" (Critic's Pick)" if critics_pick_flag == 1 or "critic" in
kicker.lower() else ""`. -/
def criticsMark (doc : Document) : Str :=
  if doc.critics_pick == some 1
      || hasSub ("critic".toList) (lowerStr (docKicker doc))
  then " (Critic's Pick)".toList else []

/-- The tail of the formatted block after the title line (byline, Published,
URL, Summary lines, each preceded by a newline). -/
def docBody (doc : Document) : Str :=
  '\n' :: docByline doc
    ++ '\n' :: ("Published: ".toList ++ docPub doc)
    ++ '\n' :: ("URL: ".toList ++ docUrl doc)
    ++ '\n' :: ("Summary: ".toList ++ docSummary doc)

/-- The formatter `format_doc` from the source: the five-line block with the whole
concatenated f-string passed through `.strip()`. -/
def format_doc (doc : Document) : Str :=
  pyStrip ("Title: ".toList ++ docTitle doc ++ criticsMark doc ++ docBody doc)

/-! ## API-result model and the two tool operations -/

/-- The JSON dictionary handed back by `nyt_get`, modelled as finely as the
tool bodies inspect it:
* `errKey` — whether the key `"error"` is present;
* `errVal` — its string value (`none` models a null/absent value, which the
  f-string renders as `"None"`);
* `resp` — `none` when the `"response"` key is absent; `some none` when it is
  present but `(response or {}).get("docs") or []` yields the empty list;
  `some (some ds)` when that expression yields the list `ds`;
* `otherKeys` — whether any further key is present (this only feeds Python's
  emptiness test `not data`). -/
structure ApiData where
  errKey : Bool
  errVal : Option Str
  resp : Option (Option (List Document))
  otherKeys : Bool

/-- Python truthiness test `not data` for the modelled dictionary: true only
for the empty dictionary `{}`. -/
def pyFalsyData (d : ApiData) : Bool :=
  !d.errKey && d.resp.isNone && !d.otherKeys

/-- Python `data.get('error')`: the value when the key is present, else `None`. -/
def errGet (d : ApiData) : Option Str :=
  if d.errKey then d.errVal else none

/-- How an optional value renders inside an f-string: Python `None` prints
as the literal text `None`. -/
def renderOptStr : Option Str → Str
  | none => "None".toList
  | some s => s

/-- Python `(data.get("response") or {}).get("docs") or []`. -/
def docsOf (d : ApiData) : List Document :=
  match d.resp with
  | some (some ds) => ds
  | _ => []

/-- Python `" AND ".join(terms)` over the (possibly empty) extra filter terms;
the base term list is empty in this revision of the source. -/
def build_movies_review_fq (extra : List Str) : Str :=
  joinSep (" AND ".toList) extra

/-- The parameter set assembled for the Article Search request. -/
structure Params where
  q : Option Str
  fq : Str
  sort : Str
  page : Int
  begin_date : Option Str
  end_date : Option Str

/-- Python `if begin: params["begin_date"] = begin` — the date parameter is set
only when the normalizer's answer is truthy (a non-empty string). -/
def optTruthy (o : Option Str) : Option Str :=
  match o with
  | some (c :: cs) => some (c :: cs)
  | _ => none

/-- The params dict built by `search_reviews_by_title` before the fetch. -/
def search_reviews_params (title start_date end_date sort : Str) (page : Int) :
    Params :=
  { q := some title
    fq := build_movies_review_fq []
    sort := sort
    page := max 0 page
    begin_date := optTruthy (iso_to_yyyymmdd start_date)
    end_date := optTruthy (iso_to_yyyymmdd end_date) }

/-- The params dict built by `get_critics_picks` before the fetch. -/
def get_critics_picks_params (start_date end_date sort : Str) (page : Int) :
    Params :=
  { q := none
    fq := build_movies_review_fq ["critics_pick:1".toList]
    sort := sort
    page := max 0 page
    begin_date := optTruthy (iso_to_yyyymmdd start_date)
    end_date := optTruthy (iso_to_yyyymmdd end_date) }

/-- The fixed `"Unable to fetch results."` error prelude. -/
def unableMsg : Str := "Unable to fetch results.".toList

/-- The rendered error reply
`f"Unable to fetch results. {data.get('error')}".strip()`. -/
def unableReply (data : ApiData) : Str :=
  pyStrip (unableMsg ++ ' ' :: renderOptStr (errGet data))

/-- The tool `search_reviews_by_title` after the fetch: the pure function of the
fetched dictionary and the `limit` argument that produces the tool's
string reply. -/
def search_reviews_by_title (data : ApiData) (limit : Int) : Str :=
  if pyFalsyData data || data.errKey then unableReply data
  else if (docsOf data).isEmpty then
    "No reviews found for the given query/date range.".toList
  else joinSep ("\n---\n".toList)
    (((docsOf data).take (max 1 limit).toNat).map format_doc)

/-- The fallback predicate of `get_critics_picks`'s document loop:
`d.get("critics_pick") == 1 or "critic" in kicker and "pick" in kicker`
(Python `and` binds tighter than `or`). -/
def keepPick (d : Document) : Bool :=
  d.critics_pick == some 1
    || (hasSub ("critic".toList) (lowerStr (docKicker d))
        && hasSub ("pick".toList) (lowerStr (docKicker d)))

/-- The filtering loop of `get_critics_picks`: append each kept document in
order. -/
def criticsFilter (docs : List Document) : List Document :=
  docs.filter keepPick

/-- The tool `get_critics_picks` after the fetch: the pure function of the fetched
dictionary and the `limit` argument that produces the tool's string reply. -/
def get_critics_picks (data : ApiData) (limit : Int) : Str :=
  if pyFalsyData data || data.errKey then unableReply data
  else if (criticsFilter (docsOf data)).isEmpty then
    "No Critics' Pick reviews found for the given criteria.".toList
  else joinSep ("\n---\n".toList)
    (((criticsFilter (docsOf data)).take (max 1 limit).toNat).map format_doc)

/-! ## Claim-side definitions, written from the spec's words -/

/-- The Response Filter membership condition as the spec words it:
`critics_pick == 1`, or the headline kicker, lower-cased, contains both the
substring `critic` and the substring `pick` (a document without a kicker can
only qualify through the flag). -/
def claimPick (d : Document) : Bool :=
  d.critics_pick == some 1 ||
    (match d.headline.bind Headline.kicker with
     | none => false
     | some k => hasSub ("critic".toList) (lowerStr k)
         && hasSub ("pick".toList) (lowerStr k))

/-- The Critic's-Pick marker condition as the spec words it:
`critics_pick == 1`, or the headline kicker, lower-cased, contains the
substring `critic` (with no requirement that it also contain `pick`). -/
def claimMark (d : Document) : Bool :=
  d.critics_pick == some 1 ||
    (match d.headline.bind Headline.kicker with
     | none => false
     | some k => hasSub ("critic".toList) (lowerStr k))

/-- The title line of the formatted block as the spec words it: the literal
`Title: `, the title (falling back to `Untitled` when missing or empty), and
the optional Critic's-Pick marker. -/
def claimTitleLine (d : Document) : Str :=
  "Title: ".toList ++ orDefault (d.headline.bind Headline.main) ("Untitled".toList)
    ++ criticsMark d

/-- The byline line: the original byline, falling back to `Unknown byline`. -/
def claimBylineLine (d : Document) : Str :=
  orDefault (d.byline.bind Byline.original) ("Unknown byline".toList)

/-- The Published line: the first 10 characters of the raw `pub_date`
string, empty if absent. -/
def claimPubLine (d : Document) : Str :=
  "Published: ".toList ++ (orDefault d.pub_date []).take 10

/-- The URL line: `web_url`, empty if absent. -/
def claimUrlLine (d : Document) : Str :=
  "URL: ".toList ++ orDefault d.web_url []

/-- The Summary line: prefer `abstract`, fall back to `snippet`, then to
empty. -/
def claimSummaryLine (d : Document) : Str :=
  "Summary: ".toList ++ orDefault d.abstract (orDefault d.snippet [])

/-- The formatted block as the spec words it: the five lines in fixed order
joined by newlines, with trailing whitespace trimmed from the whole block. -/
def claimFormat (d : Document) : Str :=
  rstrip (joinSep ['\n']
    [claimTitleLine d, claimBylineLine d, claimPubLine d, claimUrlLine d,
     claimSummaryLine d])

/-- The date shape claim C3 asserts: strictly 4-digit year, hyphen, 2-digit
month, hyphen, 2-digit day, naming a valid calendar date. -/
def strictIsoShape (t : Str) : Bool :=
  match splitOnChar '-' t with
  | [ys, ms, ds] =>
    ys.length == 4 && ms.length == 2 && ds.length == 2
      && ys.all isDig && ms.all isDig && ds.all isDig
      && decide (ValidYMD (readNat ys) (readNat ms) (readNat ds))
  | _ => false

/-- The date shape the code actually accepts (CPython `strptime` leniency):
4-digit year, hyphen, 1-or-2-digit month, hyphen, 1-or-2-digit day, naming a
valid calendar date, with the stated numeric readings. -/
def LenientIsoShape (t : Str) (y m d : Nat) : Prop :=
  ∃ ys ms ds : Str,
    t = ys ++ '-' :: (ms ++ '-' :: ds) ∧
    ys.length = 4 ∧ ys.all isDig = true ∧ readNat ys = y ∧
    1 ≤ ms.length ∧ ms.length ≤ 2 ∧ ms.all isDig = true ∧ readNat ms = m ∧
    1 ≤ ds.length ∧ ds.length ≤ 2 ∧ ds.all isDig = true ∧ readNat ds = d ∧
    ValidYMD y m d

/-- A calendar date rendered in the spec's `YYYY-MM-DD` form (zero-padded
4-2-2, hyphen-separated). -/
def fmtDashed (y m d : Nat) : Str :=
  padNum4 y ++ '-' :: (padNum2 m ++ '-' :: padNum2 d)

/-! ## Concrete inputs used by witnesses and counterexamples -/

/-- The spec's example document carrying only `headline.main = "Barbie"`. -/
def barbieDoc : Document :=
  { headline := some { main := some ("Barbie".toList), kicker := none }
    byline := none, pub_date := none, web_url := none
    abstract := none, snippet := none, critics_pick := none }

/-- A document whose kicker mentions `Critic` but not `pick`, with
`critics_pick = 0`: it earns the marker but fails the Response Filter. -/
def looseDoc : Document :=
  { headline := some { main := some ("X".toList), kicker := some ("Critic".toList) }
    byline := none, pub_date := none, web_url := none
    abstract := none, snippet := none, critics_pick := some 0 }

/-- A document with kicker `Movies` and `critics_pick = 0`: excluded by the
Response Filter. -/
def moviesDoc : Document :=
  { headline := some { main := some ("Y".toList), kicker := some ("Movies".toList) }
    byline := none, pub_date := none, web_url := none
    abstract := none, snippet := none, critics_pick := some 0 }

/-- A minimal critics-pick document with the given title. -/
def simpleDoc (t : Str) : Document :=
  { headline := some { main := some t, kicker := none }
    byline := none, pub_date := none, web_url := none
    abstract := none, snippet := none, critics_pick := some 1 }

/-- The empty JSON dictionary `{}` (parsed body with no keys at all). -/
def emptyDict : ApiData :=
  { errKey := false, errVal := none, resp := none, otherKeys := false }

/-- An error-carrying result, as `nyt_get` produces on failure. -/
def errData : ApiData :=
  { errKey := true, errVal := some ("Request failed: boom".toList)
    resp := none, otherKeys := false }

/-- A successful result whose docs list is empty. -/
def emptyDocsData : ApiData :=
  { errKey := false, errVal := none, resp := some (some []), otherKeys := false }

/-- A successful result with one document the critics-pick filter rejects. -/
def moviesData : ApiData :=
  { errKey := false, errVal := none
    resp := some (some [moviesDoc]), otherKeys := false }

/-- A successful result with five documents that all match the critics-pick
filter. -/
def fiveData : ApiData :=
  { errKey := false, errVal := none
    resp := some (some [simpleDoc ("A".toList), simpleDoc ("B".toList),
      simpleDoc ("C".toList), simpleDoc ("D".toList), simpleDoc ("E".toList)])
    otherKeys := false }

/-! ## Helper lemmas: digits and numeric readings -/

theorem isDig_elim {c : Char} (h : isDig c = true) :
    c = '0' ∨ c = '1' ∨ c = '2' ∨ c = '3' ∨ c = '4' ∨
    c = '5' ∨ c = '6' ∨ c = '7' ∨ c = '8' ∨ c = '9' := by
  simp only [isDig, Bool.or_eq_true, beq_iff_eq] at h
  tauto

theorem digVal_lt_ten {c : Char} (h : isDig c = true) : digVal c < 10 := by
  rcases isDig_elim h with h|h|h|h|h|h|h|h|h|h <;> subst h <;> decide

theorem isDig_not_space {c : Char} (h : isDig c = true) : pyIsSpace c = false := by
  rcases isDig_elim h with h|h|h|h|h|h|h|h|h|h <;> subst h <;> decide

theorem isDig_ne_dash {c : Char} (h : isDig c = true) : (c == '-') = false := by
  rcases isDig_elim h with h|h|h|h|h|h|h|h|h|h <;> subst h <;> decide

theorem digitChar_isDig (n : Nat) : isDig (digitChar n) = true := by
  rcases n with _|_|_|_|_|_|_|_|_|n <;> rfl

theorem digitChar_not_space (n : Nat) : pyIsSpace (digitChar n) = false :=
  isDig_not_space (digitChar_isDig n)

theorem digitChar_ne_dash (n : Nat) : (digitChar n == '-') = false :=
  isDig_ne_dash (digitChar_isDig n)

theorem digVal_digitChar {n : Nat} (h : n < 10) : digVal (digitChar n) = n := by
  interval_cases n <;> decide

theorem readNatAux_append (a : Nat) (xs ys : Str) :
    readNatAux a (xs ++ ys) = readNatAux (readNatAux a xs) ys := by
  induction xs generalizing a with
  | nil => rfl
  | cons c cs ih => simp only [List.cons_append, readNatAux]; exact ih _

theorem readNatAux_eq (s : Str) (a : Nat) :
    readNatAux a s = a * 10 ^ s.length + readNat s := by
  induction s generalizing a with
  | nil => simp [readNatAux, readNat]
  | cons c cs ih =>
    have h1 := ih (10 * a + digVal c)
    have h2 := ih (digVal c)
    simp only [readNatAux, readNat, List.length_cons] at *
    rw [h1]
    rw [show (10 : Nat) * 0 + digVal c = digVal c by omega, h2]
    ring

theorem readNat_cons (c : Char) (cs : Str) :
    readNat (c :: cs) = digVal c * 10 ^ cs.length + readNat cs := by
  simp only [readNat, readNatAux]
  rw [show (10 : Nat) * 0 + digVal c = digVal c by omega, readNatAux_eq]
  rfl

theorem readNat_lt (s : Str) (h : s.all isDig = true) :
    readNat s < 10 ^ s.length := by
  induction s with
  | nil => simp [readNat, readNatAux]
  | cons c cs ih =>
    simp only [List.all_cons, Bool.and_eq_true] at h
    have hv : digVal c < 10 := digVal_lt_ten h.1
    have h3 : readNat cs < 10 ^ cs.length := ih h.2
    rw [readNat_cons, List.length_cons]
    calc digVal c * 10 ^ cs.length + readNat cs
        < digVal c * 10 ^ cs.length + 10 ^ cs.length := by omega
      _ = (digVal c + 1) * 10 ^ cs.length := by ring
      _ ≤ 10 * 10 ^ cs.length := Nat.mul_le_mul_right _ (by omega)
      _ = 10 ^ (cs.length + 1) := by rw [pow_succ]; ring

theorem readNat_padNum2 {n : Nat} (h : n < 100) : readNat (padNum2 n) = n := by
  have h1 : digVal (digitChar (n / 10 % 10)) = n / 10 % 10 :=
    digVal_digitChar (Nat.mod_lt _ (by omega))
  have h2 : digVal (digitChar (n % 10)) = n % 10 :=
    digVal_digitChar (Nat.mod_lt _ (by omega))
  simp only [padNum2, readNat, readNatAux, h1, h2]
  omega

theorem readNat_padNum4 {n : Nat} (h : n < 10000) : readNat (padNum4 n) = n := by
  have h1 : digVal (digitChar (n / 1000 % 10)) = n / 1000 % 10 :=
    digVal_digitChar (Nat.mod_lt _ (by omega))
  have h2 : digVal (digitChar (n / 100 % 10)) = n / 100 % 10 :=
    digVal_digitChar (Nat.mod_lt _ (by omega))
  have h3 : digVal (digitChar (n / 10 % 10)) = n / 10 % 10 :=
    digVal_digitChar (Nat.mod_lt _ (by omega))
  have h4 : digVal (digitChar (n % 10)) = n % 10 :=
    digVal_digitChar (Nat.mod_lt _ (by omega))
  simp only [padNum4, readNat, readNatAux, h1, h2, h3, h4]
  omega

theorem padNum2_all (n : Nat) : (padNum2 n).all isDig = true := by
  simp [padNum2, digitChar_isDig]

theorem padNum4_all (n : Nat) : (padNum4 n).all isDig = true := by
  simp [padNum4, digitChar_isDig]

theorem natDigits4_eq_padNum4 {n : Nat} (h : 1000 ≤ n) :
    natDigits4 n = padNum4 n := by
  unfold natDigits4
  rw [if_neg (by omega), if_neg (by omega), if_neg (by omega)]

/-! ## Helper lemmas: splitting on the hyphen -/

theorem splitOnChar_ne_nil (c : Char) (t : Str) : splitOnChar c t ≠ [] := by
  cases t with
  | nil => simp [splitOnChar]
  | cons x xs =>
    simp only [splitOnChar]
    split <;> split <;> simp

theorem joinChar_splitOnChar (c : Char) (t : Str) :
    joinChar c (splitOnChar c t) = t := by
  induction t with
  | nil => rfl
  | cons x xs ih =>
    cases h : splitOnChar c xs with
    | nil => exact absurd h (splitOnChar_ne_nil c xs)
    | cons hd tl =>
      have ihx : joinChar c (hd :: tl) = xs := by rw [← h]; exact ih
      by_cases hx : x = c
      · subst hx
        simp only [splitOnChar, h, beq_self_eq_true, if_pos, joinChar, ihx,
          List.nil_append]
      · have hx' : (x == c) = false := by simp [hx]
        simp only [splitOnChar, h, hx', Bool.false_eq_true, if_neg,
          not_false_eq_true]
        cases tl with
        | nil =>
          simp only [joinChar] at ihx ⊢
          rw [ihx]
        | cons y t2 =>
          simp only [joinChar] at ihx ⊢
          rw [List.cons_append, ihx]

theorem splitOnChar_no_sep (c : Char) (t : Str)
    (h : ∀ x ∈ t, (x == c) = false) : splitOnChar c t = [t] := by
  induction t with
  | nil => rfl
  | cons x xs ih =>
    have hx := h x (by simp)
    have hall : ∀ y ∈ xs, (y == c) = false := fun y hy => h y (by simp [hy])
    simp [splitOnChar, ih hall, hx]

theorem splitOnChar_append_cons (c : Char) (a r : Str)
    (h : ∀ x ∈ a, (x == c) = false) :
    splitOnChar c (a ++ c :: r) = a :: splitOnChar c r := by
  induction a with
  | nil =>
    cases hr : splitOnChar c r with
    | nil => exact absurd hr (splitOnChar_ne_nil c r)
    | cons hd tl => simp [splitOnChar, hr]
  | cons x xs ih =>
    have hx := h x (by simp)
    have hall : ∀ y ∈ xs, (y == c) = false := fun y hy => h y (by simp [hy])
    simp [splitOnChar, ih hall, hx]

/-! ## Helper lemmas: stripping -/

theorem dropWhile_all_neg (p : Char → Bool) (t : Str)
    (h : t.all (fun c => !p c) = true) : List.dropWhile p t = t := by
  cases t with
  | nil => rfl
  | cons c cs =>
    simp only [List.all_cons, Bool.and_eq_true] at h
    exact List.dropWhile_cons_of_neg (by simpa using h.1)

theorem pyStrip_eq_self (s : Str) (h : s.all (fun c => !pyIsSpace c) = true) :
    pyStrip s = s := by
  unfold pyStrip
  rw [dropWhile_all_neg _ _ h, dropWhile_all_neg _ _ (by simpa using h),
    List.reverse_reverse]

theorem all_dig_nospace (s : Str) (h : s.all isDig = true) :
    s.all (fun c => !pyIsSpace c) = true := by
  rw [List.all_eq_true] at h ⊢
  intro x hx
  simp [isDig_not_space (h x hx)]

theorem pyStrip_surround (a s b : Str) (ha : a.all pyIsSpace = true)
    (hb : b.all pyIsSpace = true) (hs : s.all (fun c => !pyIsSpace c) = true)
    (hne : s ≠ []) : pyStrip (a ++ s ++ b) = s := by
  obtain ⟨c, cs, rfl⟩ : ∃ c cs, s = c :: cs := by
    cases s with
    | nil => exact absurd rfl hne
    | cons c cs => exact ⟨c, cs, rfl⟩
  have hc : pyIsSpace c = false := by
    have := List.all_eq_true.mp hs c (by simp)
    simpa using this
  unfold pyStrip
  rw [List.append_assoc,
    List.dropWhile_append_of_pos (fun a hax => List.all_eq_true.mp ha a hax)]
  rw [show (c :: cs) ++ b = c :: (cs ++ b) from rfl,
    List.dropWhile_cons_of_neg (by simp [hc])]
  rw [show c :: (cs ++ b) = (c :: cs) ++ b from rfl, List.reverse_append,
    List.dropWhile_append_of_pos
      (fun a hax => List.all_eq_true.mp hb a (List.mem_reverse.mp hax)),
    dropWhile_all_neg _ _ (by rw [List.all_reverse]; exact hs),
    List.reverse_reverse]

theorem pyStrip_of_head (c : Char) (t : Str) (h : pyIsSpace c = false) :
    pyStrip (c :: t) = rstrip (c :: t) := by
  unfold pyStrip rstrip
  rw [List.dropWhile_cons_of_neg (by simp [h])]

theorem rstrip_append (x y : Str) :
    rstrip (x ++ y) =
      if (rstrip y).isEmpty then rstrip x else x ++ rstrip y := by
  unfold rstrip
  rw [List.reverse_append, List.dropWhile_append]
  have hrev : ((List.dropWhile pyIsSpace y.reverse).reverse).isEmpty
      = (List.dropWhile pyIsSpace y.reverse).isEmpty := by
    apply Bool.eq_iff_iff.mpr
    simp [List.isEmpty_iff]
  by_cases h : (List.dropWhile pyIsSpace y.reverse).isEmpty
  · rw [if_pos h, if_pos (by rw [hrev]; exact h)]
  · rw [if_neg h, if_neg (by rw [hrev]; exact h), List.reverse_append,
      List.reverse_reverse]

theorem leadsWith_append_self (p r : Str) : leadsWith p (p ++ r) = true := by
  induction p with
  | nil => rfl
  | cons c cs ih => simp [leadsWith, ih]

theorem unable_leads (s : Str) :
    leadsWith unableMsg (pyStrip (unableMsg ++ ' ' :: s)) = true := by
  have h0 : unableMsg ++ ' ' :: s
      = 'U' :: ("nable to fetch results.".toList ++ ' ' :: s) := rfl
  rw [h0, pyStrip_of_head _ _ (by decide), ← h0,
    show unableMsg ++ ' ' :: s = (unableMsg ++ [' ']) ++ s by simp,
    rstrip_append]
  by_cases h : (rstrip s).isEmpty
  · rw [if_pos h]
    decide
  · rw [if_neg h, show (unableMsg ++ [' ']) ++ rstrip s
      = unableMsg ++ (' ' :: rstrip s) by simp]
    exact leadsWith_append_self _ _

/-! ## Helper lemmas: the strptime parse -/

theorem daysInMonth_le_31 (y m : Nat) : daysInMonth y m ≤ 31 := by
  unfold daysInMonth
  split <;> split <;> omega

theorem yearTok_eq_some {t : Str} {y : Nat} :
    yearTok t = some y ↔ t.length = 4 ∧ t.all isDig = true ∧ readNat t = y := by
  unfold yearTok
  by_cases h : (t.length == 4 && t.all isDig) = true
  · rw [if_pos h]
    simp only [Bool.and_eq_true, beq_iff_eq] at h
    simp [h.1, h.2]
  · rw [if_neg h]
    simp only [Bool.and_eq_true, beq_iff_eq, not_and] at h
    constructor
    · intro h0; exact absurd h0 (by simp)
    · rintro ⟨h1, h2, h3⟩
      exact absurd h2 (h h1)

theorem fieldTok_eq_some {lo hi : Nat} {t : Str} {v : Nat} :
    fieldTok lo hi t = some v ↔
      1 ≤ t.length ∧ t.length ≤ 2 ∧ t.all isDig = true ∧
      lo ≤ readNat t ∧ readNat t ≤ hi ∧ readNat t = v := by
  have hlen : (!t.isEmpty) = true ↔ 1 ≤ t.length := by
    cases t <;> simp
  unfold fieldTok
  split
  · rename_i hcond
    simp only [Bool.and_eq_true, decide_eq_true_eq] at hcond
    obtain ⟨⟨⟨⟨h1, h2⟩, h3⟩, h4⟩, h5⟩ := hcond
    constructor
    · intro h0
      injection h0 with h0
      exact ⟨hlen.mp h1, h2, h3, h4, h5, h0⟩
    · rintro ⟨-, -, -, -, -, h6⟩
      rw [h6]
  · rename_i hcond
    constructor
    · intro h0; exact absurd h0 (by simp)
    · rintro ⟨h1, h2, h3, h4, h5, h6⟩
      apply absurd _ hcond
      simp only [Bool.and_eq_true, decide_eq_true_eq]
      exact ⟨⟨⟨⟨hlen.mpr h1, h2⟩, h3⟩, h4⟩, h5⟩

theorem parseYMD_eq_some_iff (t : Str) (y m d : Nat) :
    parseYMD t = some (y, m, d) ↔ LenientIsoShape t y m d := by
  constructor
  · intro h
    unfold parseYMD at h
    cases hs : splitOnChar '-' t with
    | nil => rw [hs] at h; exact absurd h (by simp)
    | cons p1 r1 =>
    cases r1 with
    | nil => rw [hs] at h; exact absurd h (by simp)
    | cons p2 r2 =>
    cases r2 with
    | nil => rw [hs] at h; exact absurd h (by simp)
    | cons p3 r3 =>
    cases r3 with
    | cons p4 r4 => rw [hs] at h; exact absurd h (by simp)
    | nil =>
    rw [hs] at h
    have h2 : (match yearTok p1, fieldTok 1 12 p2, fieldTok 1 31 p3 with
        | some yy, some mm, some dd =>
          if 1 ≤ yy ∧ dd ≤ daysInMonth yy mm then some (yy, mm, dd) else none
        | _, _, _ => none) = some (y, m, d) := h
    cases hy : yearTok p1 with
    | none => rw [hy] at h2; exact absurd h2 (by simp)
    | some y' =>
    cases hm : fieldTok 1 12 p2 with
    | none => rw [hy, hm] at h2; exact absurd h2 (by simp)
    | some m' =>
    cases hd : fieldTok 1 31 p3 with
    | none => rw [hy, hm, hd] at h2; exact absurd h2 (by simp)
    | some d' =>
    rw [hy, hm, hd] at h2
    have h3 : (if 1 ≤ y' ∧ d' ≤ daysInMonth y' m' then
        some ((y', m', d') : Nat × Nat × Nat) else none) = some (y, m, d) := h2
    by_cases hval : 1 ≤ y' ∧ d' ≤ daysInMonth y' m'
    · rw [if_pos hval] at h3
      injection h3 with h3
      simp only [Prod.mk.injEq] at h3
      obtain ⟨rfl, rfl, rfl⟩ := h3
      obtain ⟨hy1, hy2, hy3⟩ := yearTok_eq_some.mp hy
      obtain ⟨hm1, hm2, hm3, hm4, hm5, hm6⟩ := fieldTok_eq_some.mp hm
      obtain ⟨hd1, hd2, hd3, hd4, hd5, hd6⟩ := fieldTok_eq_some.mp hd
      have hteq : t = p1 ++ '-' :: (p2 ++ '-' :: p3) := by
        have hj := joinChar_splitOnChar '-' t
        rw [hs] at hj
        simpa [joinChar] using hj.symm
      have hylt : readNat p1 < 10 ^ p1.length := readNat_lt p1 hy2
      rw [hy1, hy3] at hylt
      exact ⟨p1, p2, p3, hteq, hy1, hy2, hy3, hm1, hm2, hm3, hm6,
        hd1, hd2, hd3, hd6,
        hval.1, by simpa using Nat.lt_succ_iff.mp (by simpa using hylt),
        hm6 ▸ hm4, hm6 ▸ hm5, hd6 ▸ hd4, hval.2⟩
    · rw [if_neg hval] at h3
      exact absurd h3 (by simp)
  · rintro ⟨ys, ms, ds, rfl, hy1, hy2, hy3, hm1, hm2, hm3, hm4,
      hd1, hd2, hd3, hd4, hv1, hv2, hv3, hv4, hv5, hv6⟩
    have hnody : ∀ x ∈ ys, (x == '-') = false :=
      fun x hx => isDig_ne_dash (List.all_eq_true.mp hy2 x hx)
    have hnodm : ∀ x ∈ ms, (x == '-') = false :=
      fun x hx => isDig_ne_dash (List.all_eq_true.mp hm3 x hx)
    have hnodd : ∀ x ∈ ds, (x == '-') = false :=
      fun x hx => isDig_ne_dash (List.all_eq_true.mp hd3 x hx)
    have hsplit : splitOnChar '-' (ys ++ '-' :: (ms ++ '-' :: ds))
        = [ys, ms, ds] := by
      rw [splitOnChar_append_cons _ _ _ hnody,
        splitOnChar_append_cons _ _ _ hnodm, splitOnChar_no_sep _ _ hnodd]
    have hyt : yearTok ys = some y := yearTok_eq_some.mpr ⟨hy1, hy2, hy3⟩
    have hmt : fieldTok 1 12 ms = some m := fieldTok_eq_some.mpr
      ⟨hm1, hm2, hm3, by omega, by omega, hm4⟩
    have hdt : fieldTok 1 31 ds = some d := fieldTok_eq_some.mpr
      ⟨hd1, hd2, hd3, by omega,
       by have := daysInMonth_le_31 y m; omega, hd4⟩
    unfold parseYMD
    rw [hsplit]
    show (match yearTok ys, fieldTok 1 12 ms, fieldTok 1 31 ds with
        | some yy, some mm, some dd =>
          if 1 ≤ yy ∧ dd ≤ daysInMonth yy mm then some (yy, mm, dd) else none
        | _, _, _ => none) = some (y, m, d)
    rw [hyt, hmt, hdt]
    show (if 1 ≤ y ∧ d ≤ daysInMonth y m then
        some ((y, m, d) : Nat × Nat × Nat) else none) = some (y, m, d)
    rw [if_pos ⟨hv1, hv6⟩]

/-! ## Helper lemmas: the date normalizer's branches -/

theorem iso_branch (s : Str) (hne : s ≠ []) :
    iso_to_yyyymmdd s =
      if (pyStrip s).length == 8 && (pyStrip s).all isDig then some (pyStrip s)
      else (parseYMD (pyStrip s)).map (fun p => fmtYMD p.1 p.2.1 p.2.2) := by
  unfold iso_to_yyyymmdd
  rw [if_neg (by simp [List.isEmpty_iff, hne])]

theorem iso_of_8dig (s : Str) (hne : s ≠ []) (hlen : (pyStrip s).length = 8)
    (hdig : (pyStrip s).all isDig = true) :
    iso_to_yyyymmdd s = some (pyStrip s) := by
  rw [iso_branch s hne, if_pos (by simp [hlen, hdig])]

theorem iso_of_parse (s : Str) (hne : s ≠ [])
    (h8 : ¬((pyStrip s).length = 8 ∧ (pyStrip s).all isDig = true)) :
    iso_to_yyyymmdd s =
      (parseYMD (pyStrip s)).map (fun p => fmtYMD p.1 p.2.1 p.2.2) := by
  rw [iso_branch s hne, if_neg]
  simp only [Bool.and_eq_true, beq_iff_eq]
  exact h8

theorem fmtDashed_nospace (y m d : Nat) :
    (fmtDashed y m d).all (fun c => !pyIsSpace c) = true := by
  have hdash : pyIsSpace '-' = false := by decide
  simp [fmtDashed, padNum4, padNum2, digitChar_not_space, hdash]

theorem fmtDashed_ne_nil (y m d : Nat) : fmtDashed y m d ≠ [] := by
  simp [fmtDashed, padNum4]

theorem fmtDashed_length (y m d : Nat) : (fmtDashed y m d).length = 10 := by
  simp [fmtDashed, padNum4, padNum2]

theorem parseYMD_fmtDashed {y m d : Nat} (h : ValidYMD y m d) :
    parseYMD (fmtDashed y m d) = some (y, m, d) := by
  obtain ⟨h1, h2, h3, h4, h5, h6⟩ := h
  exact (parseYMD_eq_some_iff _ y m d).mpr
    ⟨padNum4 y, padNum2 m, padNum2 d, rfl,
     rfl, padNum4_all y, readNat_padNum4 (by omega),
     by simp [padNum2], by simp [padNum2], padNum2_all m,
     readNat_padNum2 (by omega),
     by simp [padNum2], by simp [padNum2], padNum2_all d,
     readNat_padNum2 (by
       have := daysInMonth_le_31 y m
       omega),
     h1, h2, h3, h4, h5, h6⟩

theorem iso_fmtDashed {y m d : Nat} (h : ValidYMD y m d) :
    iso_to_yyyymmdd (fmtDashed y m d) = some (fmtYMD y m d) := by
  have hstrip : pyStrip (fmtDashed y m d) = fmtDashed y m d :=
    pyStrip_eq_self _ (fmtDashed_nospace y m d)
  rw [iso_of_parse _ (fmtDashed_ne_nil y m d)
    (by rw [hstrip, fmtDashed_length]; omega), hstrip,
    parseYMD_fmtDashed h]
  rfl

theorem filter_nodash (s : Str) (h : s.all isDig = true) :
    s.filter (fun c => !(c == '-')) = s := by
  apply List.filter_eq_self.mpr
  intro a ha
  simp [isDig_ne_dash (List.all_eq_true.mp h a ha)]

theorem fmtYMD_filter {y m d : Nat} (hy : 1000 ≤ y) :
    fmtYMD y m d = (fmtDashed y m d).filter (fun c => !(c == '-')) := by
  have hdash : ((('-') == '-') : Bool) = true := by decide
  rw [fmtYMD, natDigits4_eq_padNum4 hy, fmtDashed]
  rw [List.filter_append, List.filter_cons, List.filter_append,
    List.filter_cons]
  simp only [hdash, Bool.not_true, Bool.false_eq_true, if_neg,
    not_false_eq_true, if_false]
  rw [filter_nodash _ (padNum4_all y), filter_nodash _ (padNum2_all m),
    filter_nodash _ (padNum2_all d), List.append_assoc]

/-! ## Helper lemmas: tool responses -/

theorem search_err_branch (data : ApiData) (limit : Int)
    (h : data.errKey = true) :
    search_reviews_by_title data limit = unableReply data := by
  unfold search_reviews_by_title
  rw [if_pos (by simp [h])]

theorem critics_err_branch (data : ApiData) (limit : Int)
    (h : data.errKey = true) :
    get_critics_picks data limit = unableReply data := by
  unfold get_critics_picks
  rw [if_pos (by simp [h])]

theorem unableReply_of_err (data : ApiData) (h : data.errKey = true) :
    unableReply data = pyStrip (unableMsg ++ ' ' :: renderOptStr data.errVal) := by
  simp [unableReply, errGet, h]

theorem keepPick_eq_claimPick (d : Document) : keepPick d = claimPick d := by
  unfold keepPick claimPick docKicker
  cases hk : d.headline.bind Headline.kicker with
  | none => simp [orDefault, lowerStr, hasSub]
  | some k =>
    cases k with
    | nil => simp [orDefault, lowerStr, hasSub]
    | cons c cs => simp [orDefault]

theorem markCond_eq_claimMark (d : Document) :
    (d.critics_pick == some 1
      || hasSub ("critic".toList) (lowerStr (docKicker d))) = claimMark d := by
  unfold claimMark docKicker
  cases hk : d.headline.bind Headline.kicker with
  | none => simp [orDefault, lowerStr, hasSub]
  | some k =>
    cases k with
    | nil => simp [orDefault, lowerStr, hasSub]
    | cons c cs => simp [orDefault]

theorem criticsMark_eq_ite (d : Document) :
    criticsMark d = if claimMark d then " (Critic's Pick)".toList else [] := by
  rw [criticsMark, markCond_eq_claimMark]

/-! ## Claim theorems -/

/-- C1: the critics-pick Response Filter keeps exactly the documents whose
`critics_pick` equals 1 or whose lower-cased kicker contains both the
substring `critic` and the substring `pick`; it is the stable `List.filter`
of that predicate, hence a sublist of its input preserving relative order. -/
theorem get_critics_picks_filter_spec (docs : List Document) :
    criticsFilter docs = docs.filter claimPick ∧
    List.Sublist (criticsFilter docs) docs ∧
    ∀ d, d ∈ criticsFilter docs ↔ d ∈ docs ∧ claimPick d = true := by
  have he : criticsFilter docs = docs.filter claimPick := by
    unfold criticsFilter
    rw [funext keepPick_eq_claimPick]
  refine ⟨he, ?_, ?_⟩
  · rw [he]; exact List.filter_sublist docs
  · intro d
    rw [he]
    simp [List.mem_filter]

/-- C2: the formatter appends the marker " (Critic's Pick)" exactly when
`critics_pick = 1` or the lower-cased kicker contains the substring
`critic`; this condition is implied by the Response Filter's membership
condition but strictly weaker than it (witnessed by `looseDoc`), and the
marker sits on the title line of `format_doc`'s output. -/
theorem format_doc_marker_spec (d : Document) :
    (criticsMark d = " (Critic's Pick)".toList ∨ criticsMark d = []) ∧
    (criticsMark d = " (Critic's Pick)".toList ↔ claimMark d = true) ∧
    (claimPick d = true → claimMark d = true) ∧
    (claimMark looseDoc = true ∧ claimPick looseDoc = false) ∧
    format_doc d
      = pyStrip ("Title: ".toList ++ docTitle d ++ criticsMark d ++ docBody d) := by
  refine ⟨?_, ?_, ?_, by decide, rfl⟩
  · rw [criticsMark_eq_ite]
    cases h : claimMark d <;> simp [h]
  · rw [criticsMark_eq_ite]
    cases h : claimMark d <;> simp [h]
  · intro h
    unfold claimPick at h
    unfold claimMark
    cases hk : d.headline.bind Headline.kicker with
    | none => rw [hk] at h; simpa using h
    | some k =>
      rw [hk] at h
      simp only [Bool.or_eq_true, Bool.and_eq_true] at h ⊢
      rcases h with h | ⟨h1, h2⟩
      · exact Or.inl h
      · exact Or.inr h1

/-- Witness for C2 at `looseDoc`, whose kicker mentions `Critic` only. -/
theorem format_doc_marker_witness :
    criticsMark looseDoc = " (Critic's Pick)".toList :=
  ((format_doc_marker_spec looseDoc).2.1).mpr (by decide)

/-- C6: `format_doc` is a pure function producing the fixed five-line block
(title with `Untitled` fallback, byline with `Unknown byline` fallback,
`Published:` with the first 10 characters of `pub_date`, `URL:`, `Summary:`
preferring abstract then snippet then empty) joined by newlines with
trailing whitespace trimmed from the whole block, and on the document whose
only field is `headline.main = "Barbie"` it yields exactly the expected
block with first line `Title: Barbie` and no trailing blank lines. -/
theorem format_doc_structure_spec :
    (∀ d, format_doc d = claimFormat d) ∧
    format_doc barbieDoc =
      "Title: Barbie\nUnknown byline\nPublished: \nURL: \nSummary:".toList := by
  constructor
  · intro d
    have hL : "Title: ".toList ++ docTitle d ++ criticsMark d ++ docBody d
        = claimTitleLine d ++ '\n' :: (claimBylineLine d ++ '\n' ::
          (claimPubLine d ++ '\n' :: (claimUrlLine d ++ '\n' ::
            claimSummaryLine d))) := by
      unfold claimTitleLine claimBylineLine claimPubLine claimUrlLine
        claimSummaryLine docBody docTitle docByline docPub docUrl docSummary
      simp [List.append_assoc]
    unfold format_doc claimFormat
    rw [show joinSep ['\n'] [claimTitleLine d, claimBylineLine d,
        claimPubLine d, claimUrlLine d, claimSummaryLine d]
      = claimTitleLine d ++ '\n' :: (claimBylineLine d ++ '\n' ::
          (claimPubLine d ++ '\n' :: (claimUrlLine d ++ '\n' ::
            claimSummaryLine d))) by simp [joinSep]]
    rw [← hL]
    exact pyStrip_of_head 'T'
      ("itle: ".toList ++ docTitle d ++ criticsMark d ++ docBody d)
      (by decide)
  · decide

/-- C10: on the empty JSON dictionary `{}` both tools treat the result as a
fetch failure and render the missing error detail as the literal text
`None`. -/
theorem unable_none_spec (limit : Int) :
    search_reviews_by_title emptyDict limit
      = "Unable to fetch results. None".toList ∧
    get_critics_picks emptyDict limit
      = "Unable to fetch results. None".toList := by
  have hc : (pyFalsyData emptyDict || emptyDict.errKey) = true := by decide
  have hr : unableReply emptyDict = "Unable to fetch results. None".toList := by
    decide
  constructor
  · unfold search_reviews_by_title
    rw [if_pos hc, hr]
  · unfold get_critics_picks
    rw [if_pos hc, hr]

/-- C4: whenever the fetched dictionary carries the `error` key, both tools
return the stripped `Unable to fetch results.` message followed by the
rendered error detail, and in particular their replies begin with that
literal prefix; the modelled operations are total, so no exception can
reach the caller. -/
theorem unable_fetch_spec (data : ApiData) (limit : Int)
    (h : data.errKey = true) :
    search_reviews_by_title data limit
      = pyStrip (unableMsg ++ ' ' :: renderOptStr data.errVal) ∧
    get_critics_picks data limit
      = pyStrip (unableMsg ++ ' ' :: renderOptStr data.errVal) ∧
    leadsWith unableMsg (search_reviews_by_title data limit) = true ∧
    leadsWith unableMsg (get_critics_picks data limit) = true := by
  have h1 := search_err_branch data limit h
  have h2 := critics_err_branch data limit h
  have he := unableReply_of_err data h
  refine ⟨h1.trans he, h2.trans he, ?_, ?_⟩
  · rw [h1, he]; exact unable_leads _
  · rw [h2, he]; exact unable_leads _

/-- Witness for C4 at a concrete error-carrying result. -/
theorem unable_fetch_witness :
    search_reviews_by_title errData 5
      = "Unable to fetch results. Request failed: boom".toList := by
  rw [(unable_fetch_spec errData 5 (by decide)).1]
  decide

/-- C5: for successful responses, an empty docs list makes search-by-title
return exactly its fixed empty-success message, and an empty critics-pick
filter result makes get-critics-picks return exactly its fixed message;
neither message begins with the error prefix, so these are distinct
empty-success outcomes. -/
theorem empty_success_spec (data : ApiData) (limit : Int)
    (herr : data.errKey = false) (hfal : pyFalsyData data = false) :
    (docsOf data = [] → search_reviews_by_title data limit
        = "No reviews found for the given query/date range.".toList) ∧
    (criticsFilter (docsOf data) = [] → get_critics_picks data limit
        = "No Critics' Pick reviews found for the given criteria.".toList) ∧
    leadsWith unableMsg
      ("No reviews found for the given query/date range.".toList) = false ∧
    leadsWith unableMsg
      ("No Critics' Pick reviews found for the given criteria.".toList) = false := by
  refine ⟨?_, ?_, by decide, by decide⟩
  · intro hd
    unfold search_reviews_by_title
    rw [if_neg (by simp [herr, hfal])]
    simp [hd]
  · intro hf
    unfold get_critics_picks
    rw [if_neg (by simp [herr, hfal])]
    simp [hf]

/-- Witness for C5 at concrete successful responses. -/
theorem empty_success_witness :
    search_reviews_by_title emptyDocsData 5
        = "No reviews found for the given query/date range.".toList ∧
    get_critics_picks moviesData 5
        = "No Critics' Pick reviews found for the given criteria.".toList :=
  ⟨(empty_success_spec emptyDocsData 5 (by decide) (by decide)).1 (by decide),
   (empty_success_spec moviesData 5 (by decide) (by decide)).2.1 (by decide)⟩

/-- C8: both request builders clamp the page to be non-negative, both reply
builders clamp the result limit to at least 1 before use, and on a
non-empty (filtered) document list the reply is exactly the first
clamped-limit documents, in order, formatted and joined with the separator
`"\n---\n"` — hence at most that many blocks. -/
theorem clamp_and_limit_spec :
    (∀ title sd ed so (page : Int),
        (search_reviews_params title sd ed so page).page = max 0 page ∧
        0 ≤ (search_reviews_params title sd ed so page).page) ∧
    (∀ sd ed so (page : Int),
        (get_critics_picks_params sd ed so page).page = max 0 page ∧
        0 ≤ (get_critics_picks_params sd ed so page).page) ∧
    (∀ data (limit : Int), data.errKey = false → pyFalsyData data = false →
        docsOf data ≠ [] →
        search_reviews_by_title data limit
          = joinSep ("\n---\n".toList)
              (((docsOf data).take (max 1 limit).toNat).map format_doc) ∧
        ((docsOf data).take (max 1 limit).toNat).length ≤ (max 1 limit).toNat ∧
        (1 : Int) ≤ max 1 limit) ∧
    (∀ data (limit : Int), data.errKey = false → pyFalsyData data = false →
        criticsFilter (docsOf data) ≠ [] →
        get_critics_picks data limit
          = joinSep ("\n---\n".toList)
              (((criticsFilter (docsOf data)).take (max 1 limit).toNat).map
                format_doc) ∧
        ((criticsFilter (docsOf data)).take (max 1 limit).toNat).length
            ≤ (max 1 limit).toNat) := by
  refine ⟨?_, ?_, ?_, ?_⟩
  · intro title sd ed so page
    exact ⟨rfl, le_max_left 0 page⟩
  · intro sd ed so page
    exact ⟨rfl, le_max_left 0 page⟩
  · intro data limit herr hfal hne
    refine ⟨?_, ?_, le_max_left 1 limit⟩
    · unfold search_reviews_by_title
      rw [if_neg (by simp [herr, hfal]),
        if_neg (by simp [List.isEmpty_iff, hne])]
    · rw [List.length_take]; exact min_le_left _ _
  · intro data limit herr hfal hne
    refine ⟨?_, ?_⟩
    · unfold get_critics_picks
      rw [if_neg (by simp [herr, hfal]),
        if_neg (by simp [List.isEmpty_iff, hne])]
    · rw [List.length_take]; exact min_le_left _ _

/-- Witness for C8: limit 2 over five matching documents yields exactly the
first two formatted blocks. -/
theorem clamp_and_limit_witness :
    get_critics_picks fiveData 2
      = joinSep ("\n---\n".toList)
          (((criticsFilter (docsOf fiveData)).take 2).map format_doc) ∧
    ((criticsFilter (docsOf fiveData)).take 2).length = 2 := by
  have h := clamp_and_limit_spec.2.2.2 fiveData 2 (by decide) (by decide)
    (by decide)
  have hm : ((max 1 2 : Int)).toNat = 2 := by decide
  exact ⟨by rw [h.1, hm], by decide⟩

/-- C3 counterexample: the input `2024-1-1` is non-empty, not an
8-character all-digit string, and not in the strict 4-2-2 hyphenated shape,
yet the normalizer returns `20240101` (CPython's strptime accepts 1- and
2-digit month and day fields), contradicting the claim's "exactly when". -/
theorem iso_strict_cex :
    ("2024-1-1".toList ≠ ([] : Str)) ∧
    ¬(("2024-1-1".toList).length = 8 ∧ ("2024-1-1".toList).all isDig = true) ∧
    strictIsoShape (pyStrip ("2024-1-1".toList)) = false ∧
    iso_to_yyyymmdd ("2024-1-1".toList) = some ("20240101".toList) := by
  decide

/-- C3 amended: for non-empty input whose stripped form is not an
8-character digit string, the normalizer returns a value exactly when the
stripped input is a 4-digit year, hyphen, 1-or-2-digit month, hyphen,
1-or-2-digit day naming a valid calendar date (CPython strptime leniency),
and the value is strftime's compact rendering of that date; otherwise it
returns `none`, and the function is total so nothing is raised. -/
theorem iso_to_yyyymmdd_amended_spec (s : Str) (hne : s ≠ [])
    (h8 : ¬((pyStrip s).length = 8 ∧ (pyStrip s).all isDig = true)) :
    (∀ y m d, LenientIsoShape (pyStrip s) y m d →
        iso_to_yyyymmdd s = some (fmtYMD y m d)) ∧
    ((∀ y m d, ¬ LenientIsoShape (pyStrip s) y m d) →
        iso_to_yyyymmdd s = none) := by
  have hb := iso_of_parse s hne h8
  constructor
  · intro y m d hsh
    rw [hb, (parseYMD_eq_some_iff _ y m d).mpr hsh]
    rfl
  · intro hno
    rw [hb]
    cases hp : parseYMD (pyStrip s) with
    | none => rfl
    | some p =>
      exact absurd ((parseYMD_eq_some_iff _ p.1 p.2.1 p.2.2).mp
        (by simpa using hp)) (hno p.1 p.2.1 p.2.2)

/-- Witness for the amended C3 at `2024-1-1`. -/
theorem iso_to_yyyymmdd_amended_witness :
    iso_to_yyyymmdd ("2024-1-1".toList) = some (fmtYMD 2024 1 1) :=
  (iso_to_yyyymmdd_amended_spec ("2024-1-1".toList) (by decide) (by decide)).1
    2024 1 1
    ⟨"2024".toList, "1".toList, "1".toList, by decide⟩

/-- C7 counterexample: for the valid calendar date 999-01-01, the
normalizer maps `0999-01-01` to `9990101` (glibc strftime `%Y` drops the
leading zero), which is not the input's digits with the hyphens removed. -/
theorem iso_roundtrip_cex :
    ValidYMD 999 1 1 ∧
    fmtDashed 999 1 1 = "0999-01-01".toList ∧
    iso_to_yyyymmdd (fmtDashed 999 1 1) = some ("9990101".toList) ∧
    "9990101".toList ≠ (fmtDashed 999 1 1).filter (fun c => !(c == '-')) := by
  decide

/-- C7 amended: for calendar dates with a four-digit year (at least 1000)
the normalizer maps the `YYYY-MM-DD` rendering to exactly its digits with
the hyphens removed, and any 8-character digit string is returned
unchanged. -/
theorem iso_roundtrip_amended_spec :
    (∀ y m d, ValidYMD y m d → 1000 ≤ y →
        iso_to_yyyymmdd (fmtDashed y m d)
          = some ((fmtDashed y m d).filter (fun c => !(c == '-')))) ∧
    (∀ s : Str, s.length = 8 → s.all isDig = true →
        iso_to_yyyymmdd s = some s) := by
  constructor
  · intro y m d h hy
    rw [iso_fmtDashed h, fmtYMD_filter hy]
  · intro s h8 hdig
    have hne : s ≠ [] := by intro h0; rw [h0] at h8; simp at h8
    have hstrip : pyStrip s = s := pyStrip_eq_self s (all_dig_nospace s hdig)
    rw [iso_of_8dig s hne (by rw [hstrip]; exact h8)
      (by rw [hstrip]; exact hdig), hstrip]

/-- Witness for the amended C7. -/
theorem iso_roundtrip_amended_witness :
    iso_to_yyyymmdd (fmtDashed 2024 3 7)
        = some ((fmtDashed 2024 3 7).filter (fun c => !(c == '-'))) ∧
    iso_to_yyyymmdd ("20240101".toList) = some ("20240101".toList) :=
  ⟨iso_roundtrip_amended_spec.1 2024 3 7 (by decide) (by decide),
   iso_roundtrip_amended_spec.2 ("20240101".toList) (by decide) (by decide)⟩

/-- C9 counterexample: the inner string `0999-01-01` is a valid strictly
shaped YYYY-MM-DD date, yet surrounded by whitespace the normalizer returns
the 7-character `9990101`, not an 8-digit compact date. -/
theorem iso_strip_cex :
    (" 0999-01-01 ".toList
        = (" ".toList) ++ ("0999-01-01".toList) ++ (" ".toList)) ∧
    strictIsoShape ("0999-01-01".toList) = true ∧
    iso_to_yyyymmdd (" 0999-01-01 ".toList) = some ("9990101".toList) ∧
    ("9990101".toList).length ≠ 8 := by
  decide

/-- C9 amended: the normalizer strips surrounding whitespace before its
8-digit and parse checks: an 8-digit string surrounded by whitespace yields
the stripped string itself (not the original input), and a `YYYY-MM-DD`
date with year at least 1000 surrounded by whitespace yields the 8-digit
compact form of the inner date. -/
theorem iso_strip_amended_spec (a b : Str) (ha : a.all pyIsSpace = true)
    (hb : b.all pyIsSpace = true) :
    (∀ s : Str, s.length = 8 → s.all isDig = true →
        iso_to_yyyymmdd (a ++ s ++ b) = some s) ∧
    (∀ y m d, ValidYMD y m d → 1000 ≤ y →
        iso_to_yyyymmdd (a ++ fmtDashed y m d ++ b)
          = some (padNum4 y ++ padNum2 m ++ padNum2 d) ∧
        (padNum4 y ++ padNum2 m ++ padNum2 d).length = 8) := by
  constructor
  · intro s h8 hdig
    have hsne : s ≠ [] := by intro h0; rw [h0] at h8; simp at h8
    have hne : a ++ s ++ b ≠ [] := by
      intro h0
      have h1 := List.append_eq_nil.mp h0
      exact hsne (List.append_eq_nil.mp h1.1).2
    have hstrip : pyStrip (a ++ s ++ b) = s :=
      pyStrip_surround a s b ha hb (all_dig_nospace s hdig) hsne
    rw [iso_of_8dig _ hne (by rw [hstrip]; exact h8)
      (by rw [hstrip]; exact hdig), hstrip]
  · intro y m d h hy
    have hne : a ++ fmtDashed y m d ++ b ≠ [] := by
      intro h0
      have h1 := List.append_eq_nil.mp h0
      exact fmtDashed_ne_nil y m d (List.append_eq_nil.mp h1.1).2
    have hstrip : pyStrip (a ++ fmtDashed y m d ++ b) = fmtDashed y m d :=
      pyStrip_surround a _ b ha hb (fmtDashed_nospace y m d)
        (fmtDashed_ne_nil y m d)
    constructor
    · rw [iso_of_parse _ hne (by rw [hstrip, fmtDashed_length]; omega),
        hstrip, parseYMD_fmtDashed h]
      show some (fmtYMD y m d) = _
      rw [fmtYMD, natDigits4_eq_padNum4 hy]
    · simp [padNum4, padNum2]

/-- Witness for the amended C9. -/
theorem iso_strip_amended_witness :
    iso_to_yyyymmdd ((" ".toList) ++ ("20240101".toList) ++ ("\t".toList))
        = some ("20240101".toList) ∧
    iso_to_yyyymmdd ((" ".toList) ++ fmtDashed 2024 1 15 ++ ("\t".toList))
        = some (padNum4 2024 ++ padNum2 1 ++ padNum2 15) :=
  ⟨(iso_strip_amended_spec _ _ (by decide) (by decide)).1 _ (by decide)
      (by decide),
   ((iso_strip_amended_spec _ _ (by decide) (by decide)).2 2024 1 15
      (by decide) (by decide)).1⟩
